import Mathlib

/-!
Verification of the pairwise-alignment engine `Bio/Align/_pairwisealigner.c`
against its design document.  The C code is shallowly embedded: C `double`
values are modelled as exact rationals (`ℚ`), C `int` / `Py_ssize_t` as `ℤ`
with explicit range constants, Python objects such as gap-score callables as
opaque identity tokens (`Option ℕ`), and fallible entry points as `Except`.
Each definition mirrors one function or macro of the C source and carries its
name where Lean permits.
-/

namespace BioAlign

/-! ### Bit constants and sentinels

`STARTPOINT`, `ENDPOINT`, `M_MATRIX`, `Ix_MATRIX`, `Iy_MATRIX`, `DONE`,
`NONE`, `OVERFLOW_ERROR`, `MEMORY_ERROR`, `OTHER_ERROR` are taken verbatim
from the top of `_pairwisealigner.c`.  The direction bits `DIAGONAL`,
`HORIZONTAL`, `VERTICAL` live in the header `_pairwisealigner.h`, which is
not part of the sources; they are modelled from the spec: the trace field is
a 5-bit set over the three directions plus `STARTPOINT = 0x8` and
`ENDPOINT = 0x10`, the `path` field is 3 bits wide with sentinels
`DONE = 0x3` and `NONE = 0x7`, and the FOGSAA code notes
`DIAGONAL + HORIZONTAL + VERTICAL = 7`, so the three directions are the
three distinct low bits 1, 2, 4 (the particular assignment among the three
is immaterial to every statement below, which treats them symbolically). -/

def HORIZONTAL : ℕ := 0x1

def VERTICAL : ℕ := 0x2

def DIAGONAL : ℕ := 0x4

def STARTPOINT : ℕ := 0x8

def ENDPOINT : ℕ := 0x10

def M_MATRIX : ℕ := 0x1

def Ix_MATRIX : ℕ := 0x2

def Iy_MATRIX : ℕ := 0x4

def DONE : ℕ := 0x3

def NONE : ℕ := 0x7

/-- `PY_SSIZE_T_MAX` on a 64-bit platform, the platform signed-word maximum
used by `SAFE_ADD`. -/
def PY_SSIZE_T_MAX : ℤ := 2 ^ 63 - 1

def OVERFLOW_ERROR : ℤ := -1

def MEMORY_ERROR : ℤ := -2

def OTHER_ERROR : ℤ := -3

/-- `INT_MAX` for the 32-bit C `int` used for sequence lengths `nA`, `nB`. -/
def INT_MAX : ℤ := 2 ^ 31 - 1

/-! ### Modes and algorithms (enums from the header, fields visible in the C) -/

inductive Mode where
  | Global
  | Local
  | FOGSAA_Mode
  deriving DecidableEq, Repr

inductive Algorithm where
  | Unknown
  | NeedlemanWunschSmithWaterman
  | Gotoh
  | WatermanSmithBeyer
  | FOGSAA
  deriving DecidableEq, Repr

/-- A substitution matrix: a square `dim × dim` array of doubles.  Only the
shape and the entries are relevant to the core. -/
structure SubstMatrix where
  dim : ℕ
  entry : ℕ → ℕ → ℚ

/-- The `Aligner` object.  Field names follow the C struct; C `double`
becomes `ℚ`, the two gap-score callables become opaque tokens
(`Option ℕ`, `none` = NULL pointer, pointer equality = token equality),
and `wildcard` keeps the C convention that `-1` encodes "none". -/
structure Aligner where
  mode : Mode
  matchScore : ℚ
  mismatch : ℚ
  epsilon : ℚ
  wildcard : ℤ
  open_internal_insertion_score : ℚ
  extend_internal_insertion_score : ℚ
  open_internal_deletion_score : ℚ
  extend_internal_deletion_score : ℚ
  open_left_insertion_score : ℚ
  extend_left_insertion_score : ℚ
  open_right_insertion_score : ℚ
  extend_right_insertion_score : ℚ
  open_left_deletion_score : ℚ
  extend_left_deletion_score : ℚ
  open_right_deletion_score : ℚ
  extend_right_deletion_score : ℚ
  insertion_score_function : Option ℕ
  deletion_score_function : Option ℕ
  substitution_matrix : Option SubstMatrix
  algorithm : Algorithm

/-- `Aligner_init`: the freshly initialised aligner. -/
def Aligner_init : Aligner where
  mode := Mode.Global
  matchScore := 1
  mismatch := 0
  epsilon := 1 / 1000000
  wildcard := -1
  open_internal_insertion_score := 0
  extend_internal_insertion_score := 0
  open_internal_deletion_score := 0
  extend_internal_deletion_score := 0
  open_left_insertion_score := 0
  extend_left_insertion_score := 0
  open_right_insertion_score := 0
  extend_right_insertion_score := 0
  open_left_deletion_score := 0
  extend_left_deletion_score := 0
  open_right_deletion_score := 0
  extend_right_deletion_score := 0
  insertion_score_function := none
  deletion_score_function := none
  substitution_matrix := none
  algorithm := Algorithm.Unknown

/-- The six `open == extend` comparisons performed by `_get_algorithm`
(lines 1749-1754 of the C source), in source order. -/
def sixOpenExtendPairsEqual (a : Aligner) : Prop :=
  a.open_internal_insertion_score = a.extend_internal_insertion_score
    ∧ a.open_internal_deletion_score = a.extend_internal_deletion_score
    ∧ a.open_left_insertion_score = a.extend_left_insertion_score
    ∧ a.open_right_insertion_score = a.extend_right_insertion_score
    ∧ a.open_left_deletion_score = a.extend_left_deletion_score
    ∧ a.open_right_deletion_score = a.extend_right_deletion_score

instance (a : Aligner) : Decidable (sixOpenExtendPairsEqual a) := by
  unfold sixOpenExtendPairsEqual; infer_instance

/-- `_get_algorithm`: returns the memoized algorithm, deriving it first when
it is `Unknown` (the C also stores the derived value back; the cached-store
side effect is captured by `_get_algorithm_memo` below). -/
def _get_algorithm (self : Aligner) : Algorithm :=
  if self.algorithm = Algorithm.Unknown then
    if self.mode = Mode.FOGSAA_Mode then
      Algorithm.FOGSAA
    else if self.insertion_score_function ≠ none ∨ self.deletion_score_function ≠ none then
      Algorithm.WatermanSmithBeyer
    else if sixOpenExtendPairsEqual self then
      Algorithm.NeedlemanWunschSmithWaterman
    else
      Algorithm.Gotoh
  else
    self.algorithm

/-! ### Parameter setters (the successful paths of the C `Aligner_set_*`).

Each definition reproduces exactly which fields the C function writes; in
particular `Aligner_set_match_score` and `Aligner_set_mismatch_score` call
`PyBuffer_Release(&self->substitution_matrix)` (clearing the matrix) and do
NOT touch `self->algorithm`, whereas the mode/epsilon/gap setters end with
`self->algorithm = Unknown`. -/

def Aligner_set_mode (self : Aligner) (mode : Mode) : Aligner :=
  { self with algorithm := Algorithm.Unknown, mode := mode }

def Aligner_set_match_score (self : Aligner) (matchScore : ℚ) : Aligner :=
  { self with substitution_matrix := none, matchScore := matchScore }

def Aligner_set_mismatch_score (self : Aligner) (mismatch : ℚ) : Aligner :=
  { self with substitution_matrix := none, mismatch := mismatch }

def Aligner_set_substitution_matrix (self : Aligner) (values : Option SubstMatrix) : Aligner :=
  { self with substitution_matrix := values }

def Aligner_set_epsilon (self : Aligner) (epsilon : ℚ) : Aligner :=
  { self with epsilon := epsilon, algorithm := Algorithm.Unknown }

/-- `Aligner_set_wildcard` with `none` playing the role of Python `None`. -/
def Aligner_set_wildcard (self : Aligner) (value : Option ℤ) : Aligner :=
  match value with
  | none => { self with wildcard := -1 }
  | some c => { self with wildcard := c }

/-- Argument of a gap-score setter: a callable (opaque token) or a number. -/
inductive GapValue where
  | fn (token : ℕ)
  | num (score : ℚ)

def Aligner_set_gap_score (self : Aligner) (value : GapValue) : Aligner :=
  match value with
  | GapValue.fn k =>
      { self with
        insertion_score_function := some k
        deletion_score_function := some k
        algorithm := Algorithm.Unknown }
  | GapValue.num score =>
      { self with
        insertion_score_function := none
        deletion_score_function := none
        open_internal_insertion_score := score
        extend_internal_insertion_score := score
        open_left_insertion_score := score
        extend_left_insertion_score := score
        open_right_insertion_score := score
        extend_right_insertion_score := score
        open_internal_deletion_score := score
        extend_internal_deletion_score := score
        open_left_deletion_score := score
        extend_left_deletion_score := score
        open_right_deletion_score := score
        extend_right_deletion_score := score
        algorithm := Algorithm.Unknown }

def Aligner_set_open_internal_insertion_score (self : Aligner) (score : ℚ) : Aligner :=
  { self with
    open_internal_insertion_score := score
    insertion_score_function := none
    algorithm := Algorithm.Unknown }

def Aligner_set_insertion_score (self : Aligner) (value : GapValue) : Aligner :=
  match value with
  | GapValue.fn k =>
      { self with insertion_score_function := some k, algorithm := Algorithm.Unknown }
  | GapValue.num score =>
      { self with
        open_internal_insertion_score := score
        extend_internal_insertion_score := score
        open_left_insertion_score := score
        extend_left_insertion_score := score
        open_right_insertion_score := score
        extend_right_insertion_score := score
        insertion_score_function := none
        algorithm := Algorithm.Unknown }

/-- Result of the aggregate `gap_score` getter. -/
inductive GapScoreResult where
  | fn (token : ℕ)
  | num (score : ℚ)
  deriving DecidableEq

/-- The eleven scalar comparisons of `Aligner_get_gap_score`, in source
order: every other gap scalar compared against
`open_internal_insertion_score`. -/
def twelveGapScalarsEqual (a : Aligner) : Prop :=
  a.open_internal_insertion_score = a.extend_internal_insertion_score
    ∧ a.open_internal_insertion_score = a.open_left_insertion_score
    ∧ a.open_internal_insertion_score = a.extend_left_insertion_score
    ∧ a.open_internal_insertion_score = a.open_right_insertion_score
    ∧ a.open_internal_insertion_score = a.extend_right_insertion_score
    ∧ a.open_internal_insertion_score = a.open_internal_deletion_score
    ∧ a.open_internal_insertion_score = a.extend_internal_deletion_score
    ∧ a.open_internal_insertion_score = a.open_left_deletion_score
    ∧ a.open_internal_insertion_score = a.extend_left_deletion_score
    ∧ a.open_internal_insertion_score = a.open_right_deletion_score
    ∧ a.open_internal_insertion_score = a.extend_right_deletion_score

instance (a : Aligner) : Decidable (twelveGapScalarsEqual a) := by
  unfold twelveGapScalarsEqual; infer_instance

/-- `Aligner_get_gap_score`.  When a gap function is installed on either
side the C compares the two PyObject pointers; when none is installed it
compares the twelve gap scalars and raises `ValueError("gap scores are
different")` on any disagreement. -/
def Aligner_get_gap_score (self : Aligner) : Except String GapScoreResult :=
  if self.insertion_score_function ≠ none ∨ self.deletion_score_function ≠ none then
    if self.insertion_score_function ≠ self.deletion_score_function then
      Except.error "gap scores are different"
    else
      -- both functions are present and equal here; the C returns the pointer
      Except.ok (GapScoreResult.fn (self.insertion_score_function.getD 0))
  else
    if twelveGapScalarsEqual self then
      Except.ok (GapScoreResult.num self.open_internal_insertion_score)
    else
      Except.error "gap scores are different"

/-! ### Tie-break trace selection (`SELECT_TRACE_*` macros)

The recurrences store the winning direction exclusively when it beats the
running best by more than `epsilon`, and OR the direction bit into the trace
when it lies within `epsilon` of the running best. -/

/-- `SELECT_TRACE_NEEDLEMAN_WUNSCH`: starting from the diagonal candidate,
process the horizontal candidate (`row[j-1] + hgap`) and then the vertical
candidate (`row[j] + vgap`), returning the cell score and trace byte. -/
def SELECT_TRACE_NEEDLEMAN_WUNSCH (epsilon diag hcand vcand : ℚ) : ℚ × ℕ :=
  let score := diag
  let trace := DIAGONAL
  let st :=
    if hcand > score + epsilon then (hcand, HORIZONTAL)
    else if hcand > score - epsilon then (score, trace ||| HORIZONTAL)
    else (score, trace)
  if vcand > st.1 + epsilon then (vcand, VERTICAL)
  else if vcand > st.1 - epsilon then (st.1, st.2 ||| VERTICAL)
  else st

/-- `SELECT_TRACE_GOTOH_GLOBAL_ALIGN`: identical structure over the three
matrices `M`, `Ix`, `Iy` (candidates `M_temp`, `Ix_temp`, `Iy_temp`). -/
def SELECT_TRACE_GOTOH_GLOBAL_ALIGN (epsilon M_temp Ix_temp Iy_temp : ℚ) : ℚ × ℕ :=
  let score := M_temp
  let trace := M_MATRIX
  let st :=
    if Ix_temp > score + epsilon then (Ix_temp, Ix_MATRIX)
    else if Ix_temp > score - epsilon then (score, trace ||| Ix_MATRIX)
    else (score, trace)
  if Iy_temp > st.1 + epsilon then (Iy_temp, Iy_MATRIX)
  else if Iy_temp > st.1 - epsilon then (st.1, st.2 ||| Iy_MATRIX)
  else st

/-- The tie-break rule as the spec words it, for one candidate against the
running best `(score, trace)`: replace exclusively when more than `epsilon`
better, OR the bit in when within `epsilon`, ignore otherwise. -/
def tieBreakStep (epsilon : ℚ) (best : ℚ × ℕ) (cand : ℚ) (candBit : ℕ) : ℚ × ℕ :=
  if cand > best.1 + epsilon then (cand, candBit)
  else if cand > best.1 - epsilon then (best.1, best.2 ||| candBit)
  else best

/-! ### Saturating path counting (`SAFE_ADD`, `PathGenerator_*_length`) -/

/-- `SAFE_ADD(t, s)`: add term `t` into the running sum `s` unless `s` is
already the `OVERFLOW_ERROR` sentinel; saturate to the sentinel when the
sum would exceed `PY_SSIZE_T_MAX` (the test runs before the addition). -/
def SAFE_ADD (t s : ℤ) : ℤ :=
  if s ≠ OVERFLOW_ERROR then
    if t > PY_SSIZE_T_MAX - s then OVERFLOW_ERROR else s + t
  else s

/-- Row 0 of `PathGenerator_needlemanwunsch_length`:
`counts[0] = 1`, then `counts[j] = trace(0,j) & HORIZONTAL ? counts[j-1] : 0`
through `SAFE_ADD`. -/
def nwCountRow0 (trace : ℕ → ℕ → ℕ) (nB : ℕ) : List ℤ :=
  (List.range nB).foldl
    (fun counts j =>
      let count : ℤ := 0
      let count :=
        if (trace 0 (j + 1)) &&& HORIZONTAL ≠ 0 then SAFE_ADD (counts.getLastD 0) count
        else count
      counts ++ [count])
    [1]

/-- One row `i ≥ 1` of `PathGenerator_needlemanwunsch_length`: `cur` is the
new row built so far (so `cur.getLastD 0` is `counts[j-1]` after update),
`prev` the previous row (`counts[j]` before update, and `temp = prev[j-1]`
for the diagonal term).  Terms are accumulated in source order
HORIZONTAL, VERTICAL, DIAGONAL. -/
def nwCountRowStep (trace : ℕ → ℕ → ℕ) (i nB : ℕ) (prev : List ℤ) : List ℤ :=
  let c0 : ℤ :=
    if (trace i 0) &&& VERTICAL ≠ 0 then SAFE_ADD (prev.getD 0 0) 0 else 0
  (List.range nB).foldl
    (fun cur j =>
      let count : ℤ := 0
      let count :=
        if (trace i (j + 1)) &&& HORIZONTAL ≠ 0 then SAFE_ADD (cur.getLastD 0) count
        else count
      let count :=
        if (trace i (j + 1)) &&& VERTICAL ≠ 0 then SAFE_ADD (prev.getD (j + 1) 0) count
        else count
      let count :=
        if (trace i (j + 1)) &&& DIAGONAL ≠ 0 then SAFE_ADD (prev.getD j 0) count
        else count
      cur ++ [count])
    [c0]

/-- All rows of the path-count grid, row 0 first. -/
def nwCountRows (trace : ℕ → ℕ → ℕ) (nA nB : ℕ) : List (List ℤ) :=
  (List.range nA).foldl
    (fun rows i => rows ++ [nwCountRowStep trace (i + 1) nB (rows.getLastD [])])
    [nwCountRow0 trace nB]

/-- `PathGenerator_needlemanwunsch_length`: the final `count`, i.e. the last
entry of the last row (the C returns its local `count` variable; the
`MEMORY_ERROR` default mirrors its initial value). -/
def PathGenerator_needlemanwunsch_length (trace : ℕ → ℕ → ℕ) (nA nB : ℕ) : ℤ :=
  ((nwCountRows trace nA nB).getLastD []).getLastD MEMORY_ERROR

/-- Outcome of `PathGenerator_length` as seen by the caller. -/
inductive LengthResult where
  | ok (n : ℤ)
  | overflowError
  | memoryError
  deriving DecidableEq, Repr

/-- The error-reporting tail of `PathGenerator_length`: the sentinel
`OVERFLOW_ERROR` is surfaced as an `OverflowError`, `MEMORY_ERROR` as a
`MemoryError`, anything else is returned as the length. -/
def PathGenerator_length_report (length : ℤ) : LengthResult :=
  if length = OVERFLOW_ERROR then LengthResult.overflowError
  else if length = MEMORY_ERROR then LengthResult.memoryError
  else LengthResult.ok length

/-! ### Needleman-Wunsch global forward passes

Both the score-only variant (`NEEDLEMANWUNSCH_SCORE`) and the
trace-producing variant (`NEEDLEMANWUNSCH_ALIGN`) are embedded as 2-D
recurrences; the rolling one-row buffer of the C is an implementation of
exactly these per-cell equations (each `row[j]` assignment is one cell).
Edge cases are reproduced from the source faithfully, including the
bottom-left corner: the score variant initialises the final row with
`row[0] = nA * right_gap_extend_B` while the align variant initialises it
with `row[0] = i * left_gap_extend_B` (with `i = nA` there). -/

/-- `COMPARE_SCORE`: wildcard matches score 0, equality scores `match`,
anything else `mismatch`. -/
def COMPARE_SCORE (matchScore mismatch : ℚ) (wildcard kA kB : ℤ) : ℚ :=
  if kA = wildcard ∨ kB = wildcard then 0
  else if kA = kB then matchScore
  else mismatch

/-- `SELECT_SCORE_GLOBAL`: maximum of the three candidates, first wins ties. -/
def SELECT_SCORE_GLOBAL (score1 score2 score3 : ℚ) : ℚ :=
  let score := score1
  let score := if score2 > score then score2 else score
  if score3 > score then score3 else score

/-- The per-pass parameters of the Needleman-Wunsch macros after the strand
switch has resolved the four edge gap-extend penalties. -/
structure NWParams where
  sub : ℤ → ℤ → ℚ
  gap_extend_A : ℚ
  gap_extend_B : ℚ
  left_gap_extend_A : ℚ
  right_gap_extend_A : ℚ
  left_gap_extend_B : ℚ
  right_gap_extend_B : ℚ

/-- Cell `(i, j)` of `NEEDLEMANWUNSCH_SCORE` (score-only variant).  Note the
`i = nA` corner cell of column 0 uses `right_gap_extend_B`, exactly as the
source line `row[0] = nA * right_gap_extend_B;` does. -/
def nwScoreCell (p : NWParams) (sA sB : List ℤ) (nA nB : ℕ) : ℕ → ℕ → ℚ
  | 0, 0 => 0
  | 0, j + 1 => ((j + 1 : ℕ) : ℚ) * p.left_gap_extend_A
  | i + 1, 0 =>
      if i + 1 = nA then (nA : ℚ) * p.right_gap_extend_B
      else ((i + 1 : ℕ) : ℚ) * p.left_gap_extend_B
  | i + 1, j + 1 =>
      let kA := sA.getD i 0
      let kB := sB.getD j 0
      let hgap := if i + 1 = nA then p.right_gap_extend_A else p.gap_extend_A
      let vgap := if j + 1 = nB then p.right_gap_extend_B else p.gap_extend_B
      SELECT_SCORE_GLOBAL (nwScoreCell p sA sB nA nB i j + p.sub kA kB)
        (nwScoreCell p sA sB nA nB i (j + 1) + vgap)
        (nwScoreCell p sA sB nA nB (i + 1) j + hgap)
  termination_by i j => (i, j)

/-- Cell `(i, j)` of `NEEDLEMANWUNSCH_ALIGN` (trace-producing variant):
score and trace byte.  Edge traces come from `PathGenerator_create_NWSW`
(global mode: column 0 `VERTICAL`, row 0 `HORIZONTAL`, origin 0); the
column-0 scores use `left_gap_extend_B` for every row including `i = nA`
(source line `row[0] = i * left_gap_extend_B;` with `i = nA` after the
outer loop). -/
def nwAlignCell (p : NWParams) (epsilon : ℚ) (sA sB : List ℤ) (nA nB : ℕ) :
    ℕ → ℕ → ℚ × ℕ
  | 0, 0 => (0, 0)
  | 0, j + 1 => (((j + 1 : ℕ) : ℚ) * p.left_gap_extend_A, HORIZONTAL)
  | i + 1, 0 => (((i + 1 : ℕ) : ℚ) * p.left_gap_extend_B, VERTICAL)
  | i + 1, j + 1 =>
      let kA := sA.getD i 0
      let kB := sB.getD j 0
      let hgap := if i + 1 = nA then p.right_gap_extend_A else p.gap_extend_A
      let vgap := if j + 1 = nB then p.right_gap_extend_B else p.gap_extend_B
      SELECT_TRACE_NEEDLEMAN_WUNSCH epsilon
        ((nwAlignCell p epsilon sA sB nA nB i j).1 + p.sub kA kB)
        (((nwAlignCell p epsilon sA sB nA nB (i + 1) j).1) + hgap)
        (((nwAlignCell p epsilon sA sB nA nB i (j + 1)).1) + vgap)
  termination_by i j => (i, j)

/-- The strand switch shared by `NEEDLEMANWUNSCH_SCORE` and
`NEEDLEMANWUNSCH_ALIGN` (compare flavour): `'+'` takes the left/right
edge penalties as configured, `'-'` swaps them; any other strand is the
RuntimeError path (`none`). -/
def nwCompareParams (a : Aligner) (strand : Char) : Option NWParams :=
  match strand with
  | '+' =>
      some
        { sub := fun kA kB => COMPARE_SCORE a.matchScore a.mismatch a.wildcard kA kB
          gap_extend_A := a.extend_internal_insertion_score
          gap_extend_B := a.extend_internal_deletion_score
          left_gap_extend_A := a.extend_left_insertion_score
          right_gap_extend_A := a.extend_right_insertion_score
          left_gap_extend_B := a.extend_left_deletion_score
          right_gap_extend_B := a.extend_right_deletion_score }
  | '-' =>
      some
        { sub := fun kA kB => COMPARE_SCORE a.matchScore a.mismatch a.wildcard kA kB
          gap_extend_A := a.extend_internal_insertion_score
          gap_extend_B := a.extend_internal_deletion_score
          left_gap_extend_A := a.extend_right_insertion_score
          right_gap_extend_A := a.extend_left_insertion_score
          left_gap_extend_B := a.extend_right_deletion_score
          right_gap_extend_B := a.extend_left_deletion_score }
  | _ => none

/-- `Aligner_needlemanwunsch_score_compare`: the float returned by the
score-only entry point. -/
def Aligner_needlemanwunsch_score_compare (a : Aligner) (sA sB : List ℤ)
    (strand : Char) : Option ℚ :=
  (nwCompareParams a strand).map fun p =>
    nwScoreCell p sA sB sA.length sB.length sA.length sB.length

/-- `Aligner_needlemanwunsch_align_compare`, first component of the returned
pair (`Py_BuildValue("fN", score, paths)`): the score of the final
`SELECT_TRACE_NEEDLEMAN_WUNSCH`, i.e. cell `(nA, nB)`. -/
def Aligner_needlemanwunsch_align_compare_score (a : Aligner) (sA sB : List ℤ)
    (strand : Char) : Option ℚ :=
  (nwCompareParams a strand).map fun p =>
    (nwAlignCell p a.epsilon sA sB sA.length sB.length sA.length sB.length).1

/-! ### Path materialisation (`PathGenerator_create_path`) -/

/-- The emission loop of `PathGenerator_create_path`: starting at `(i, j)`
with the previous direction `direction`, emit a coordinate record whenever
the cell's `path` differs from the current direction, then advance; any
`path` value other than the three directions ends the walk.  `emit`
abstracts the strand-dependent coordinate written for B (`j` on `'+'`,
`nB - j` on `'-'`); `fuel` bounds the walk (the C relies on the grid
guaranteeing termination). -/
def createPathWalk (pathOf : ℕ → ℕ → ℕ) (emit : ℕ → ℕ → ℤ × ℤ) :
    ℕ → ℕ → ℕ → ℕ → List (ℤ × ℤ)
  | 0, _, _, _ => []
  | fuel + 1, i, j, direction =>
      let path := pathOf i j
      let emitted : List (ℤ × ℤ) := if path ≠ direction then [emit i j] else []
      if path = HORIZONTAL then emitted ++ createPathWalk pathOf emit fuel i (j + 1) path
      else if path = VERTICAL then emitted ++ createPathWalk pathOf emit fuel (i + 1) j path
      else if path = DIAGONAL then
        emitted ++ createPathWalk pathOf emit fuel (i + 1) (j + 1) path
      else emitted

/-- `PathGenerator_create_path`: the `(target, query)` coordinate pairs, with
the strand switch of the source (query coordinate `j` for `'+'`,
`nB - j` for `'-'`). -/
def PathGenerator_create_path (pathOf : ℕ → ℕ → ℕ) (nB : ℤ) (strand : Char)
    (fuel i j : ℕ) : List (ℤ × ℤ) :=
  match strand with
  | '+' => createPathWalk pathOf (fun i j => ((i : ℤ), (j : ℤ))) fuel i j 0
  | '-' => createPathWalk pathOf (fun i j => ((i : ℤ), nB - (j : ℤ))) fuel i j 0
  | _ => []

/-- Swap the left and right edge-gap parameters of an aligner (the
substitution the `'-'` strand performs before initialisation). -/
def swapLeftRight (a : Aligner) : Aligner :=
  { a with
    open_left_insertion_score := a.open_right_insertion_score
    extend_left_insertion_score := a.extend_right_insertion_score
    open_left_deletion_score := a.open_right_deletion_score
    extend_left_deletion_score := a.extend_right_deletion_score
    open_right_insertion_score := a.open_left_insertion_score
    extend_right_insertion_score := a.extend_left_insertion_score
    open_right_deletion_score := a.open_left_deletion_score
    extend_right_deletion_score := a.extend_left_deletion_score }

/-! ### FOGSAA parameter checking (`FOGSAA_CHECK_SCORES`) -/

def fogsaaMatchWarning : String :=
  "Match score is less than mismatch score. Algorithm may return incorrect results."

def fogsaaGapWarning : String :=
  "One or more gap scores are greater than mismatch score. Algorithm may return incorrect results."

/-- The twelve gap-scalar comparisons of `FOGSAA_CHECK_SCORES`, in source
order. -/
def fogsaaGapScoreViolation (a : Aligner) (mismatch : ℚ) : Prop :=
  a.open_left_deletion_score > mismatch
    ∨ a.open_internal_deletion_score > mismatch
    ∨ a.open_right_deletion_score > mismatch
    ∨ a.open_left_insertion_score > mismatch
    ∨ a.open_internal_insertion_score > mismatch
    ∨ a.open_right_insertion_score > mismatch
    ∨ a.extend_left_deletion_score > mismatch
    ∨ a.extend_internal_deletion_score > mismatch
    ∨ a.extend_right_deletion_score > mismatch
    ∨ a.extend_left_insertion_score > mismatch
    ∨ a.extend_internal_insertion_score > mismatch
    ∨ a.extend_right_insertion_score > mismatch

instance (a : Aligner) (mismatch : ℚ) : Decidable (fogsaaGapScoreViolation a mismatch) := by
  unfold fogsaaGapScoreViolation; infer_instance

/-- `PyErr_WarnEx`: emits a `BiopythonWarning`.  Under the default warning
filters it returns 0 and execution continues; when the Python layer has
turned warnings into errors it returns -1 and the caller returns NULL.
The external filter state is the `warningsAsErrors` flag. -/
def PyErr_WarnEx (warningsAsErrors : Bool) (warnings : List String)
    (message : String) : Except String (List String) :=
  if warningsAsErrors then Except.error message
  else Except.ok (warnings ++ [message])

/-- `FOGSAA_CHECK_SCORES`: warn when `mismatch >= match`, then warn when any
of the twelve gap scalars exceeds `mismatch`; each warning aborts only if
`PyErr_WarnEx` fails.  On success, control falls through to `FOGSAA_DO`
with the accumulated warnings. -/
def FOGSAA_CHECK_SCORES (a : Aligner) (matchScore mismatch : ℚ)
    (warningsAsErrors : Bool) : Except String (List String) := do
  let warnings ←
    if mismatch ≥ matchScore then PyErr_WarnEx warningsAsErrors [] fogsaaMatchWarning
    else Except.ok []
  if fogsaaGapScoreViolation a mismatch then
    PyErr_WarnEx warningsAsErrors warnings fogsaaGapWarning
  else Except.ok warnings

/-! ### Sequence validation (`sequence_converter`, `_check_indices`, and the
length guard of `Aligner_score` / `Aligner_align`) -/

/-- A 1-D Python buffer as consumed by `sequence_converter`: shape metadata
plus the element data (`n` elements, `view->len = n * itemsize` bytes). -/
structure Buffer where
  ndim : ℕ
  itemsize : ℕ
  format : String
  n : ℕ
  data : ℕ → ℤ

inductive AlnError where
  | badRank (ndim : ℕ)
  | zeroLength
  | badDataType (format : String)
  | badItemSize (itemsize : ℕ)
  | negativeItem (index : ℕ) (value : ℤ)
  | outOfBoundItem (index : ℕ) (value : ℤ) (bound : ℤ)
  | sequencesTooLong
  deriving DecidableEq, Repr

/-- Does this error come from the sequence-code range check? -/
def AlnError.isInvalidCode : AlnError → Bool
  | AlnError.negativeItem _ _ => true
  | AlnError.outOfBoundItem _ _ _ => true
  | _ => false

/-- `sequence_converter`: rejects non-1-D buffers, zero-length buffers,
formats other than `"i"`/`"l"`, and element sizes other than
`sizeof(int) = 4`, in source order. -/
def sequence_converter (b : Buffer) : Except AlnError Unit :=
  if b.ndim ≠ 1 then Except.error (AlnError.badRank b.ndim)
  else if b.n * b.itemsize = 0 then Except.error AlnError.zeroLength
  else if b.format ≠ "i" ∧ b.format ≠ "l" then Except.error (AlnError.badDataType b.format)
  else if b.itemsize ≠ 4 then Except.error (AlnError.badItemSize b.itemsize)
  else Except.ok ()

/-- The scan of `_check_indices`: `rem` elements remaining starting at
`start`; a negative code or a code `≥ m` stops the scan with the
corresponding `ValueError`. -/
def checkIndicesGo (data : ℕ → ℤ) (m : ℤ) : ℕ → ℕ → Except AlnError Unit
  | _, 0 => Except.ok ()
  | start, rem + 1 =>
      let index := data start
      if index < 0 then Except.error (AlnError.negativeItem start index)
      else if index ≥ m then Except.error (AlnError.outOfBoundItem start index m)
      else checkIndicesGo data m (start + 1) rem

/-- `_check_indices` over the whole buffer against matrix dimension `m`. -/
def _check_indices (b : Buffer) (m : ℤ) : Except AlnError Unit :=
  checkIndicesGo b.data m 0 b.n

/-- `_prepare_indices` without the `Array_Type` alphabet-mapping branch
(matrices are modelled as plain buffers with no mapping): range-check both
sequences. -/
def _prepare_indices (m : ℤ) (bA bB : Buffer) : Except AlnError Unit := do
  _check_indices bA m
  _check_indices bB m

/-- The C cast `(int)` applied to a non-negative `Py_ssize_t`, two's
complement wrap-around into `[-2^31, 2^31)`. -/
def toCInt (x : ℤ) : ℤ := (x + 2 ^ 31) % 2 ^ 32 - 2 ^ 31

/-- The validation prefix of `Aligner_score` / `Aligner_align`: convert both
sequence buffers, range-check the codes when a substitution matrix is set,
then reject sequences whose element count does not survive the cast to a
C `int` ("sequences too long").  Only after all of this does the algorithm
dispatch (the alignment work) run. -/
def Aligner_score_checks (a : Aligner) (bA bB : Buffer) :
    Except AlnError (ℕ × ℕ) := do
  sequence_converter bA
  sequence_converter bB
  (match a.substitution_matrix with
   | some mat => _prepare_indices (mat.dim : ℤ) bA bB
   | none => Except.ok ())
  if toCInt (bA.n : ℤ) ≠ (bA.n : ℤ) ∨ toCInt (bB.n : ℤ) ≠ (bB.n : ℤ) then
    Except.error AlnError.sequencesTooLong
  else Except.ok (bA.n, bB.n)

/-! ### Rolling-row formulation of the Needleman-Wunsch passes

A second, literal embedding of the two macros, following the C loops
step by step (`row` buffer, `temp` variable, per-row `j` sweep), used to
cross-check the 2-D recurrence above at concrete inputs. -/

/-- One row sweep shared by both macros: starting from `temp = row[0]`
and the fresh `row[0] = row0new`, each `j` combines the diagonal
(`temp + sub`), vertical (`row[j] + vgap`) and horizontal
(`row[j-1] + hgap`) candidates, then shifts `temp`/`row[j]` exactly as the
C does.  `vgap` is `vLast` at `j = nB` and `vInt` before. -/
def nwLoopRow (combine : ℚ → ℚ → ℚ → ℚ) (sub : ℤ → ℤ → ℚ) (kA : ℤ) (sB : List ℤ)
    (hgap vInt vLast row0new : ℚ) (prev : List ℚ) : List ℚ :=
  ((List.range sB.length).foldl
    (fun (st : List ℚ × ℚ) j =>
      let kB := sB.getD j 0
      let vgap := if j + 1 = sB.length then vLast else vInt
      let score :=
        combine (st.2 + sub kA kB) (prev.getD (j + 1) 0 + vgap)
          (st.1.getLastD 0 + hgap)
      (st.1 ++ [score], prev.getD (j + 1) 0))
    ([row0new], prev.getD 0 0)).1

/-- `NEEDLEMANWUNSCH_SCORE` written as the C writes it: top row
`j * left_gap_extend_A`, interior rows with `row[0] = i * left_gap_extend_B`
and internal horizontal gaps, final row with
`row[0] = nA * right_gap_extend_B` and right horizontal gaps; the result is
the last score computed. -/
def NEEDLEMANWUNSCH_SCORE_loop (p : NWParams) (sA sB : List ℤ) : ℚ :=
  let nA := sA.length
  let nB := sB.length
  let row0 : List ℚ := (List.range (nB + 1)).map (fun j => (j : ℚ) * p.left_gap_extend_A)
  let mid := (List.range (nA - 1)).foldl
    (fun prev i =>
      nwLoopRow (fun d v h => SELECT_SCORE_GLOBAL d v h) p.sub (sA.getD i 0) sB
        p.gap_extend_A p.gap_extend_B p.right_gap_extend_B
        (((i + 1 : ℕ) : ℚ) * p.left_gap_extend_B) prev)
    row0
  (nwLoopRow (fun d v h => SELECT_SCORE_GLOBAL d v h) p.sub (sA.getD (nA - 1) 0) sB
      p.right_gap_extend_A p.gap_extend_B p.right_gap_extend_B
      ((nA : ℚ) * p.right_gap_extend_B) mid).getLastD 0

/-- The score component of `NEEDLEMANWUNSCH_ALIGN` written as the C writes
it; identical sweep with the epsilon-aware `SELECT_TRACE_NEEDLEMAN_WUNSCH`
score rule, and with the final row initialised to
`row[0] = i * left_gap_extend_B` (`i = nA`) as in the source. -/
def NEEDLEMANWUNSCH_ALIGN_loop_score (p : NWParams) (epsilon : ℚ)
    (sA sB : List ℤ) : ℚ :=
  let nA := sA.length
  let nB := sB.length
  let row0 : List ℚ := (List.range (nB + 1)).map (fun j => (j : ℚ) * p.left_gap_extend_A)
  let mid := (List.range (nA - 1)).foldl
    (fun prev i =>
      nwLoopRow (fun d v h => (SELECT_TRACE_NEEDLEMAN_WUNSCH epsilon d h v).1)
        p.sub (sA.getD i 0) sB
        p.gap_extend_A p.gap_extend_B p.right_gap_extend_B
        (((i + 1 : ℕ) : ℚ) * p.left_gap_extend_B) prev)
    row0
  (nwLoopRow (fun d v h => (SELECT_TRACE_NEEDLEMAN_WUNSCH epsilon d h v).1)
      p.sub (sA.getD (nA - 1) 0) sB
      p.right_gap_extend_A p.gap_extend_B p.right_gap_extend_B
      ((nA : ℚ) * p.left_gap_extend_B) mid).getLastD 0

/-! ### Concrete instances used by counterexamples and witnesses -/

/-- An aligner whose algorithm has been derived and memoized. -/
def memoAligner : Aligner :=
  { Aligner_init with algorithm := Algorithm.NeedlemanWunschSmithWaterman }

/-- The configuration exhibiting the score/align disagreement: compare mode,
global, `mismatch = -100`, all insertion and left-deletion penalties 0,
internal and right deletion penalties -10, each `open` equal to its
`extend` (so `_get_algorithm` selects Needleman-Wunsch). -/
def c1Aligner : Aligner :=
  { Aligner_init with
    mismatch := -100
    open_internal_deletion_score := -10
    extend_internal_deletion_score := -10
    open_right_deletion_score := -10
    extend_right_deletion_score := -10 }

/-- The `'+'`-strand Needleman-Wunsch parameters of `c1Aligner`, written
out. -/
def c1Params : NWParams where
  sub := fun kA kB => COMPARE_SCORE c1Aligner.matchScore c1Aligner.mismatch c1Aligner.wildcard kA kB
  gap_extend_A := c1Aligner.extend_internal_insertion_score
  gap_extend_B := c1Aligner.extend_internal_deletion_score
  left_gap_extend_A := c1Aligner.extend_left_insertion_score
  right_gap_extend_A := c1Aligner.extend_right_insertion_score
  left_gap_extend_B := c1Aligner.extend_left_deletion_score
  right_gap_extend_B := c1Aligner.extend_right_deletion_score

/-- A 35 × 36 traceback grid: rows 1-34 are full three-way ties (so the path
counts grow like central binomial coefficients and exceed
`PY_SSIZE_T_MAX`), row 35 is a horizontal corridor, and the final cell
`(35, 36)` joins the corridor (count 1) with the saturated column
(count `OVERFLOW_ERROR`). -/
def c6Trace (i j : ℕ) : ℕ :=
  if i = 0 then (if j = 0 then 0 else HORIZONTAL)
  else if j = 0 then VERTICAL
  else if i ≤ 34 then DIAGONAL ||| HORIZONTAL ||| VERTICAL
  else if j ≤ 35 then HORIZONTAL
  else HORIZONTAL ||| VERTICAL

/-- A well-formed two-element sequence buffer. -/
def okBuffer : Buffer where
  ndim := 1
  itemsize := 4
  format := "i"
  n := 2
  data := fun k => if k = 0 then 0 else 1

/-- A well-formed buffer with `2^31` elements (one more than `INT_MAX`). -/
def hugeBuffer : Buffer where
  ndim := 1
  itemsize := 4
  format := "i"
  n := 2 ^ 31
  data := fun _ => 0

/-- A well-formed buffer whose first code is negative. -/
def negBuffer : Buffer where
  ndim := 1
  itemsize := 4
  format := "i"
  n := 2
  data := fun k => if k = 0 then -5 else 1

/-- A 2 × 2 substitution matrix of zeros. -/
def mat2 : SubstMatrix where
  dim := 2
  entry := fun _ _ => 0

/-- An aligner with the 2 × 2 substitution matrix installed. -/
def matAligner : Aligner :=
  { Aligner_init with substitution_matrix := some mat2 }

/-! ## Theorems -/

/-- **C2** (confirmed).  When the memoized algorithm is `Unknown`,
`_get_algorithm` derives the algorithm as the first match of the ordered
rules: FOGSAA mode gives FOGSAA; otherwise an installed insertion or
deletion gap-score function gives Waterman-Smith-Beyer; otherwise six
open/extend scalar pairs all equal give
Needleman-Wunsch/Smith-Waterman; otherwise Gotoh. -/
theorem claim_C2 (a : Aligner) (h : a.algorithm = Algorithm.Unknown) :
    (_get_algorithm a = Algorithm.FOGSAA ↔ a.mode = Mode.FOGSAA_Mode)
      ∧ (_get_algorithm a = Algorithm.WatermanSmithBeyer ↔
          a.mode ≠ Mode.FOGSAA_Mode
            ∧ (a.insertion_score_function ≠ none ∨ a.deletion_score_function ≠ none))
      ∧ (_get_algorithm a = Algorithm.NeedlemanWunschSmithWaterman ↔
          a.mode ≠ Mode.FOGSAA_Mode
            ∧ ¬(a.insertion_score_function ≠ none ∨ a.deletion_score_function ≠ none)
            ∧ sixOpenExtendPairsEqual a)
      ∧ (_get_algorithm a = Algorithm.Gotoh ↔
          a.mode ≠ Mode.FOGSAA_Mode
            ∧ ¬(a.insertion_score_function ≠ none ∨ a.deletion_score_function ≠ none)
            ∧ ¬sixOpenExtendPairsEqual a) := by
  by_cases hm : a.mode = Mode.FOGSAA_Mode
  · simp [_get_algorithm, h, hm]
  · by_cases hf : a.insertion_score_function ≠ none ∨ a.deletion_score_function ≠ none
    · simp [_get_algorithm, h, hm, hf]
    · by_cases hsix : sixOpenExtendPairsEqual a
      · simp [_get_algorithm, h, hm, hf, hsix]
      · simp [_get_algorithm, h, hm, hf, hsix]

/-- Witness for C2 at the freshly initialised aligner. -/
theorem claim_C2_witness :
    Aligner_init.algorithm = Algorithm.Unknown
      ∧ (_get_algorithm Aligner_init = Algorithm.FOGSAA ↔
          Aligner_init.mode = Mode.FOGSAA_Mode) :=
  ⟨rfl, (claim_C2 Aligner_init rfl).1⟩

/-- **C3** (counterexample).  `Aligner_set_match_score` is a parameter
setter whose successful set does not reset the memoized algorithm to
`Unknown`: on an aligner memoized to Needleman-Wunsch/Smith-Waterman the
memo survives. -/
theorem claim_C3_counterexample :
    (Aligner_set_match_score memoAligner 5).algorithm ≠ Algorithm.Unknown := by
  simp [Aligner_set_match_score, memoAligner]

/-- **C3** (amended).  The mode, epsilon, and gap-score setters (aggregate
`gap_score`, individual scalars, and the insertion/deletion group setters)
invalidate the memoized algorithm; the match-score, mismatch-score,
wildcard, and substitution-matrix setters leave it untouched (algorithm
selection does not read those parameters). -/
theorem claim_C3_amended (a : Aligner) (m : Mode) (q : ℚ) (w : Option ℤ)
    (sm : Option SubstMatrix) (v : GapValue) :
    (Aligner_set_mode a m).algorithm = Algorithm.Unknown
      ∧ (Aligner_set_epsilon a q).algorithm = Algorithm.Unknown
      ∧ (Aligner_set_gap_score a v).algorithm = Algorithm.Unknown
      ∧ (Aligner_set_open_internal_insertion_score a q).algorithm = Algorithm.Unknown
      ∧ (Aligner_set_insertion_score a v).algorithm = Algorithm.Unknown
      ∧ (Aligner_set_match_score a q).algorithm = a.algorithm
      ∧ (Aligner_set_mismatch_score a q).algorithm = a.algorithm
      ∧ (Aligner_set_wildcard a w).algorithm = a.algorithm
      ∧ (Aligner_set_substitution_matrix a sm).algorithm = a.algorithm := by
  cases v <;> cases w <;>
    simp [Aligner_set_mode, Aligner_set_epsilon, Aligner_set_gap_score,
      Aligner_set_open_internal_insertion_score, Aligner_set_insertion_score,
      Aligner_set_match_score, Aligner_set_mismatch_score,
      Aligner_set_wildcard, Aligner_set_substitution_matrix]

/-- **C4** (confirmed).  With no gap-score function installed, the aggregate
`gap_score` getter returns the common value exactly when the twelve gap
scalars agree and otherwise fails with the "gap scores are different"
error; the numeric aggregate setter writes the one value into all twelve
scalars. -/
theorem claim_C4 :
    (∀ a : Aligner,
        a.insertion_score_function = none →
        a.deletion_score_function = none →
          (twelveGapScalarsEqual a →
              Aligner_get_gap_score a =
                Except.ok (GapScoreResult.num a.open_internal_insertion_score))
            ∧ (¬twelveGapScalarsEqual a →
              Aligner_get_gap_score a = Except.error "gap scores are different"))
      ∧ (∀ (a : Aligner) (q : ℚ),
          (Aligner_set_gap_score a (GapValue.num q)).open_internal_insertion_score = q
            ∧ (Aligner_set_gap_score a (GapValue.num q)).extend_internal_insertion_score = q
            ∧ (Aligner_set_gap_score a (GapValue.num q)).open_left_insertion_score = q
            ∧ (Aligner_set_gap_score a (GapValue.num q)).extend_left_insertion_score = q
            ∧ (Aligner_set_gap_score a (GapValue.num q)).open_right_insertion_score = q
            ∧ (Aligner_set_gap_score a (GapValue.num q)).extend_right_insertion_score = q
            ∧ (Aligner_set_gap_score a (GapValue.num q)).open_internal_deletion_score = q
            ∧ (Aligner_set_gap_score a (GapValue.num q)).extend_internal_deletion_score = q
            ∧ (Aligner_set_gap_score a (GapValue.num q)).open_left_deletion_score = q
            ∧ (Aligner_set_gap_score a (GapValue.num q)).extend_left_deletion_score = q
            ∧ (Aligner_set_gap_score a (GapValue.num q)).open_right_deletion_score = q
            ∧ (Aligner_set_gap_score a (GapValue.num q)).extend_right_deletion_score = q) := by
  constructor
  · intro a hi hd
    constructor <;> intro h12 <;> simp [Aligner_get_gap_score, hi, hd, h12]
  · intro a q
    simp [Aligner_set_gap_score]

/-- Witness for C4 at the freshly initialised aligner (all twelve scalars 0). -/
theorem claim_C4_witness :
    Aligner_get_gap_score Aligner_init =
      Except.ok (GapScoreResult.num Aligner_init.open_internal_insertion_score) :=
  ((claim_C4.1 Aligner_init rfl rfl).1
    (by simp [twelveGapScalarsEqual, Aligner_init]))

/-- **C5** (confirmed).  Both trace-selection macros are iterated
applications of the one tie-break rule, and the rule replaces the stored
trace exclusively exactly when the candidate exceeds the running best by
more than `epsilon`, ORs the direction bit in when the candidate lies
within `epsilon` of the best (above `best - epsilon` but not above
`best + epsilon`), and leaves the cell unchanged otherwise. -/
theorem claim_C5 :
    (∀ epsilon diag hcand vcand : ℚ,
        SELECT_TRACE_NEEDLEMAN_WUNSCH epsilon diag hcand vcand =
          tieBreakStep epsilon (tieBreakStep epsilon (diag, DIAGONAL) hcand HORIZONTAL)
            vcand VERTICAL)
      ∧ (∀ epsilon mtemp ixtemp iytemp : ℚ,
          SELECT_TRACE_GOTOH_GLOBAL_ALIGN epsilon mtemp ixtemp iytemp =
            tieBreakStep epsilon (tieBreakStep epsilon (mtemp, M_MATRIX) ixtemp Ix_MATRIX)
              iytemp Iy_MATRIX)
      ∧ (∀ (epsilon cand : ℚ) (best : ℚ × ℕ) (bit : ℕ),
          (cand > best.1 + epsilon → tieBreakStep epsilon best cand bit = (cand, bit))
            ∧ (¬cand > best.1 + epsilon → cand > best.1 - epsilon →
                tieBreakStep epsilon best cand bit = (best.1, best.2 ||| bit))
            ∧ (¬cand > best.1 + epsilon → ¬cand > best.1 - epsilon →
                tieBreakStep epsilon best cand bit = best)) := by
  refine ⟨fun epsilon diag hcand vcand => rfl, fun epsilon mtemp ixtemp iytemp => rfl,
    fun epsilon cand best bit => ⟨fun h1 => ?_, fun h1 h2 => ?_, fun h1 h2 => ?_⟩⟩
  · simp [tieBreakStep, h1]
  · simp [tieBreakStep, h1, h2]
  · simp [tieBreakStep, h1, h2]

/-- Witness for C5: the tie-break rule evaluated in all three regimes at
concrete numbers (`epsilon = 1`, best `(0, DIAGONAL)`). -/
theorem claim_C5_witness :
    tieBreakStep 1 ((0 : ℚ), DIAGONAL) 2 HORIZONTAL = (2, HORIZONTAL)
      ∧ tieBreakStep 1 ((0 : ℚ), DIAGONAL) (1 / 2) HORIZONTAL =
          (0, DIAGONAL ||| HORIZONTAL)
      ∧ tieBreakStep 1 ((0 : ℚ), DIAGONAL) (-2) HORIZONTAL = (0, DIAGONAL) :=
  ⟨(claim_C5.2.2 1 2 ((0 : ℚ), DIAGONAL) HORIZONTAL).1 (by norm_num),
    (claim_C5.2.2 1 (1 / 2) ((0 : ℚ), DIAGONAL) HORIZONTAL).2.1 (by norm_num) (by norm_num),
    (claim_C5.2.2 1 (-2) ((0 : ℚ), DIAGONAL) HORIZONTAL).2.2 (by norm_num) (by norm_num)⟩

set_option maxRecDepth 10000

/-- **C6** (code bug).  On the `c6Trace` grid the running count at cell
`(34, 36)` saturates to the `OVERFLOW_ERROR` sentinel (its partial sum
would exceed `PY_SSIZE_T_MAX`), yet `PathGenerator_needlemanwunsch_length`
returns 0 — the saturated predecessor is fed back into `SAFE_ADD` as the
term `-1` instead of forcing the sum to the sentinel — so the length
query reports the plain value 0 to the caller and no overflow error is
raised. -/
theorem claim_C6_bug :
    ((nwCountRows c6Trace 35 36).getD 34 []).getD 36 0 = OVERFLOW_ERROR
      ∧ PathGenerator_needlemanwunsch_length c6Trace 35 36 = 0
      ∧ PathGenerator_length_report (PathGenerator_needlemanwunsch_length c6Trace 35 36) =
          LengthResult.ok 0 := by
  refine ⟨by decide, by decide, ?_⟩
  have h : PathGenerator_needlemanwunsch_length c6Trace 35 36 = 0 := by decide
  rw [h]
  decide

/-- Pushing a post-processing function over the emitted coordinates through
the `PathGenerator_create_path` walk. -/
theorem createPathWalk_map (pathOf : ℕ → ℕ → ℕ) (emit : ℕ → ℕ → ℤ × ℤ)
    (h : ℤ × ℤ → ℤ × ℤ) :
    ∀ fuel i j direction : ℕ,
      createPathWalk pathOf (fun i j => h (emit i j)) fuel i j direction =
        (createPathWalk pathOf emit fuel i j direction).map h := by
  intro fuel
  induction fuel with
  | zero => intro i j direction; rfl
  | succ n ih =>
      intro i j direction
      simp only [createPathWalk]
      split_ifs <;> simp [ih, apply_ite (List.map h)]

/-- **C7** (confirmed).  On strand `'-'` the Needleman-Wunsch forward pass
(score and align variants alike) computes exactly what the `'+'` pass
computes after the left and right edge-gap parameters are swapped — the
DP itself still runs on the forward-indexed B — and
`PathGenerator_create_path` emits for B exactly the mirrored coordinates
`nB - j` of the `'+'` emission (the target coordinates are unchanged). -/
theorem claim_C7 :
    (∀ (a : Aligner) (sA sB : List ℤ),
        Aligner_needlemanwunsch_score_compare a sA sB '-' =
          Aligner_needlemanwunsch_score_compare (swapLeftRight a) sA sB '+'
          ∧ Aligner_needlemanwunsch_align_compare_score a sA sB '-' =
            Aligner_needlemanwunsch_align_compare_score (swapLeftRight a) sA sB '+')
      ∧ (∀ (pathOf : ℕ → ℕ → ℕ) (nB : ℤ) (fuel i j : ℕ),
          PathGenerator_create_path pathOf nB '-' fuel i j =
            (PathGenerator_create_path pathOf nB '+' fuel i j).map
              (fun c => (c.1, nB - c.2))) := by
  constructor
  · intro a sA sB
    exact ⟨rfl, rfl⟩
  · intro pathOf nB fuel i j
    exact createPathWalk_map pathOf (fun i j => ((i : ℤ), (j : ℤ)))
      (fun c => (c.1, nB - c.2)) fuel i j 0

/-- **C8** (confirmed).  With the default warning filters
(`warningsAsErrors = false`), `FOGSAA_CHECK_SCORES` always falls through
to the alignment computation: it returns the accumulated warnings — the
match/mismatch warning exactly when `mismatch ≥ match`, the gap-score
warning exactly when one of the twelve gap scalars exceeds `mismatch` —
and never an error, so parameter violations are not fatal by
themselves. -/
theorem claim_C8 (a : Aligner) (matchScore mismatch : ℚ) :
    FOGSAA_CHECK_SCORES a matchScore mismatch false =
      Except.ok
        ((if mismatch ≥ matchScore then [fogsaaMatchWarning] else []) ++
          (if fogsaaGapScoreViolation a mismatch then [fogsaaGapWarning] else [])) := by
  by_cases h1 : mismatch ≥ matchScore <;>
    by_cases h2 : fogsaaGapScoreViolation a mismatch <;>
      simp [FOGSAA_CHECK_SCORES, PyErr_WarnEx, h1, h2] <;> rfl

/-- The cast to C `int` preserves a non-negative count exactly when the
count is at most `INT_MAX`. -/
theorem toCInt_coe_eq_iff (n : ℕ) : toCInt (n : ℤ) = (n : ℤ) ↔ (n : ℤ) ≤ INT_MAX := by
  unfold toCInt INT_MAX
  have h0 : (0 : ℤ) ≤ ((n : ℤ) + 2 ^ 31) % 2 ^ 32 :=
    Int.emod_nonneg _ (by norm_num)
  have h1 : ((n : ℤ) + 2 ^ 31) % 2 ^ 32 < 2 ^ 32 :=
    Int.emod_lt_of_pos _ (by norm_num)
  have hn : (0 : ℤ) ≤ (n : ℤ) := Int.natCast_nonneg n
  constructor
  · intro h
    omega
  · intro h
    have he : ((n : ℤ) + 2 ^ 31) % 2 ^ 32 = (n : ℤ) + 2 ^ 31 :=
      Int.emod_eq_of_lt (by omega) (by omega)
    omega

/-- **C9** (confirmed).  When both sequence buffers pass the shape checks
and the substitution-matrix index check (when one is installed) raises
nothing, an element count exceeding `INT_MAX` in either sequence makes
`Aligner_score` / `Aligner_align` fail with the "sequences too long"
`ValueError` before the algorithm dispatch; and the converter separately
rejects non-1-D and zero-length buffers as documented. -/
theorem claim_C9 :
    (∀ (a : Aligner) (bA bB : Buffer),
        sequence_converter bA = Except.ok () →
        sequence_converter bB = Except.ok () →
        (∀ mat : SubstMatrix, a.substitution_matrix = some mat →
            _prepare_indices (mat.dim : ℤ) bA bB = Except.ok ()) →
        ((bA.n : ℤ) > INT_MAX ∨ (bB.n : ℤ) > INT_MAX) →
          Aligner_score_checks a bA bB = Except.error AlnError.sequencesTooLong)
      ∧ (∀ b : Buffer, b.ndim ≠ 1 →
          sequence_converter b = Except.error (AlnError.badRank b.ndim))
      ∧ (∀ b : Buffer, b.ndim = 1 → b.n * b.itemsize = 0 →
          sequence_converter b = Except.error AlnError.zeroLength) := by
  refine ⟨?_, ?_, ?_⟩
  · intro a bA bB hA hB hIdx hLong
    have hcond : toCInt (bA.n : ℤ) ≠ (bA.n : ℤ) ∨ toCInt (bB.n : ℤ) ≠ (bB.n : ℤ) := by
      rcases hLong with hL | hL
      · exact Or.inl fun he => absurd ((toCInt_coe_eq_iff bA.n).mp he) (by omega)
      · exact Or.inr fun he => absurd ((toCInt_coe_eq_iff bB.n).mp he) (by omega)
    cases hmat : a.substitution_matrix with
    | none => simp [Aligner_score_checks, hA, hB, hmat, hcond] <;> rfl
    | some mat => simp [Aligner_score_checks, hA, hB, hmat, hIdx mat hmat, hcond] <;> rfl
  · intro b hb
    simp [sequence_converter, hb]
  · intro b hb1 hb0
    simp [sequence_converter, hb1, hb0]

/-- Witness for C9: the `2^31`-element buffer trips the length guard. -/
theorem claim_C9_witness :
    Aligner_score_checks Aligner_init hugeBuffer hugeBuffer =
      Except.error AlnError.sequencesTooLong :=
  claim_C9.1 Aligner_init hugeBuffer hugeBuffer rfl rfl
    (fun mat h => by simp [Aligner_init] at h)
    (Or.inl (by norm_num [hugeBuffer, INT_MAX]))

/-- The index scan succeeds exactly when every scanned code is in range. -/
theorem checkIndicesGo_ok_iff (data : ℕ → ℤ) (m : ℤ) :
    ∀ rem start : ℕ,
      checkIndicesGo data m start rem = Except.ok () ↔
        ∀ k < rem, 0 ≤ data (start + k) ∧ data (start + k) < m := by
  intro rem
  induction rem with
  | zero => intro start; simp [checkIndicesGo]
  | succ n ih =>
      intro start
      by_cases h1 : data start < 0
      · simp only [checkIndicesGo, if_pos h1]
        constructor
        · intro h; exact absurd h (by simp)
        · intro h
          have := (h 0 (Nat.succ_pos n)).1
          rw [Nat.add_zero] at this
          omega
      · by_cases h2 : data start ≥ m
        · simp only [checkIndicesGo, if_neg h1, if_pos h2]
          constructor
          · intro h; exact absurd h (by simp)
          · intro h
            have := (h 0 (Nat.succ_pos n)).2
            rw [Nat.add_zero] at this
            omega
        · simp only [checkIndicesGo, if_neg h1, if_neg h2]
          rw [ih (start + 1)]
          constructor
          · intro h k hk
            cases k with
            | zero => exact ⟨by rw [Nat.add_zero]; omega, by rw [Nat.add_zero]; omega⟩
            | succ k =>
                have := h k (by omega)
                have e : start + 1 + k = start + (k + 1) := by omega
                rwa [e] at this
          · intro h k hk
            have := h (k + 1) (by omega)
            have e : start + (k + 1) = start + 1 + k := by omega
            rwa [e] at this

/-- Every error the index scan can produce is an invalid-code error. -/
theorem checkIndicesGo_error_invalid (data : ℕ → ℤ) (m : ℤ) :
    ∀ (rem start : ℕ) (e : AlnError),
      checkIndicesGo data m start rem = Except.error e → e.isInvalidCode = true := by
  intro rem
  induction rem with
  | zero => intro start e h; simp [checkIndicesGo] at h
  | succ n ih =>
      intro start e h
      by_cases h1 : data start < 0
      · simp only [checkIndicesGo, if_pos h1] at h
        cases h
        rfl
      · by_cases h2 : data start ≥ m
        · simp only [checkIndicesGo, if_neg h1, if_pos h2] at h
          cases h
          rfl
        · simp only [checkIndicesGo, if_neg h1, if_neg h2] at h
          exact ih (start + 1) e h

/-- Every error `sequence_converter` can produce is a shape error, never an
invalid-code error. -/
theorem sequence_converter_error_kind (b : Buffer) (e : AlnError)
    (h : sequence_converter b = Except.error e) : e.isInvalidCode = false := by
  unfold sequence_converter at h
  split_ifs at h <;> cases h <;> rfl

/-- **C10** (confirmed).  Sequence codes are range-checked exactly when a
substitution matrix is installed: with a matrix, some out-of-range code
(negative or at least the matrix dimension) makes the entry point fail
with an invalid-code error, and with all codes in range no invalid-code
error can arise; without a matrix the entry point never produces an
invalid-code error, accepting arbitrary (including negative) codes. -/
theorem claim_C10 :
    (∀ (a : Aligner) (mat : SubstMatrix) (bA bB : Buffer),
        a.substitution_matrix = some mat →
        sequence_converter bA = Except.ok () →
        sequence_converter bB = Except.ok () →
        ¬((∀ k < bA.n, 0 ≤ bA.data k ∧ bA.data k < (mat.dim : ℤ))
            ∧ ∀ k < bB.n, 0 ≤ bB.data k ∧ bB.data k < (mat.dim : ℤ)) →
          ∃ e : AlnError,
            Aligner_score_checks a bA bB = Except.error e ∧ e.isInvalidCode = true)
      ∧ (∀ (a : Aligner) (mat : SubstMatrix) (bA bB : Buffer),
          a.substitution_matrix = some mat →
          ((∀ k < bA.n, 0 ≤ bA.data k ∧ bA.data k < (mat.dim : ℤ))
              ∧ ∀ k < bB.n, 0 ≤ bB.data k ∧ bB.data k < (mat.dim : ℤ)) →
          ∀ e : AlnError,
            Aligner_score_checks a bA bB = Except.error e → e.isInvalidCode = false)
      ∧ (∀ (a : Aligner) (bA bB : Buffer),
          a.substitution_matrix = none →
          ∀ e : AlnError,
            Aligner_score_checks a bA bB = Except.error e → e.isInvalidCode = false) := by
  refine ⟨?_, ?_, ?_⟩
  · intro a mat bA bB hmat hA hB hbad
    cases hcA : _check_indices bA (mat.dim : ℤ) with
    | error e =>
        refine ⟨e, ?_, checkIndicesGo_error_invalid bA.data _ bA.n 0 e hcA⟩
        simp [Aligner_score_checks, hA, hB, hmat, _prepare_indices, hcA] <;> rfl
    | ok u =>
        cases u
        have hvA := (checkIndicesGo_ok_iff bA.data (mat.dim : ℤ) bA.n 0).mp hcA
        cases hcB : _check_indices bB (mat.dim : ℤ) with
        | error e =>
            refine ⟨e, ?_, checkIndicesGo_error_invalid bB.data _ bB.n 0 e hcB⟩
            simp [Aligner_score_checks, hA, hB, hmat, _prepare_indices, hcA, hcB] <;> rfl
        | ok u =>
            cases u
            have hvB := (checkIndicesGo_ok_iff bB.data (mat.dim : ℤ) bB.n 0).mp hcB
            exact absurd ⟨by simpa using hvA, by simpa using hvB⟩ hbad
  · intro a mat bA bB hmat hgood e he
    have hcA : _check_indices bA (mat.dim : ℤ) = Except.ok () :=
      (checkIndicesGo_ok_iff bA.data (mat.dim : ℤ) bA.n 0).mpr (by simpa using hgood.1)
    have hcB : _check_indices bB (mat.dim : ℤ) = Except.ok () :=
      (checkIndicesGo_ok_iff bB.data (mat.dim : ℤ) bB.n 0).mpr (by simpa using hgood.2)
    cases hA : sequence_converter bA with
    | error eA =>
        have : Aligner_score_checks a bA bB = Except.error eA := by
          simp [Aligner_score_checks, hA] <;> rfl
        rw [this] at he
        cases he
        exact sequence_converter_error_kind bA _ hA
    | ok u =>
        cases u
        cases hB : sequence_converter bB with
        | error eB =>
            have : Aligner_score_checks a bA bB = Except.error eB := by
              simp [Aligner_score_checks, hA, hB] <;> rfl
            rw [this] at he
            cases he
            exact sequence_converter_error_kind bB _ hB
        | ok u =>
            cases u
            by_cases hlen :
                toCInt (bA.n : ℤ) ≠ (bA.n : ℤ) ∨ toCInt (bB.n : ℤ) ≠ (bB.n : ℤ)
            · have : Aligner_score_checks a bA bB =
                  Except.error AlnError.sequencesTooLong := by
                simp [Aligner_score_checks, hA, hB, hmat, _prepare_indices, hcA, hcB, hlen] <;> rfl
              rw [this] at he
              simp at he
              cases he
              rfl
            · have : Aligner_score_checks a bA bB = Except.ok (bA.n, bB.n) := by
                simp [Aligner_score_checks, hA, hB, hmat, _prepare_indices, hcA, hcB, hlen] <;> rfl
              rw [this] at he
              simp at he
  · intro a bA bB hmat e he
    cases hA : sequence_converter bA with
    | error eA =>
        have : Aligner_score_checks a bA bB = Except.error eA := by
          simp [Aligner_score_checks, hA] <;> rfl
        rw [this] at he
        cases he
        exact sequence_converter_error_kind bA _ hA
    | ok u =>
        cases u
        cases hB : sequence_converter bB with
        | error eB =>
            have : Aligner_score_checks a bA bB = Except.error eB := by
              simp [Aligner_score_checks, hA, hB] <;> rfl
            rw [this] at he
            cases he
            exact sequence_converter_error_kind bB _ hB
        | ok u =>
            cases u
            by_cases hlen :
                toCInt (bA.n : ℤ) ≠ (bA.n : ℤ) ∨ toCInt (bB.n : ℤ) ≠ (bB.n : ℤ)
            · have : Aligner_score_checks a bA bB =
                  Except.error AlnError.sequencesTooLong := by
                simp [Aligner_score_checks, hA, hB, hmat, hlen] <;> rfl
              rw [this] at he
              simp at he
              cases he
              rfl
            · have : Aligner_score_checks a bA bB = Except.ok (bA.n, bB.n) := by
                simp [Aligner_score_checks, hA, hB, hmat, hlen] <;> rfl
              rw [this] at he
              simp at he

/-- Witness for C10: a negative code under an installed matrix yields an
invalid-code failure, and the "sequences too long" failure without a
matrix is not an invalid-code failure. -/
theorem claim_C10_witness :
    (∃ e : AlnError,
        Aligner_score_checks matAligner negBuffer okBuffer = Except.error e
          ∧ e.isInvalidCode = true)
      ∧ AlnError.sequencesTooLong.isInvalidCode = false :=
  ⟨claim_C10.1 matAligner mat2 negBuffer okBuffer rfl rfl rfl
      (fun h => by
        have := (h.1 0 (by norm_num [negBuffer])).1
        simp [negBuffer] at this),
    claim_C10.2.2 Aligner_init hugeBuffer hugeBuffer rfl
      AlnError.sequencesTooLong (by rfl)⟩

/-- **C1** (code bug).  `score` and `align` disagree: on the Needleman-Wunsch
global configuration `c1Aligner` (selected by `_get_algorithm`, so
`Aligner_score` and `Aligner_align` both dispatch to the Needleman-Wunsch
compare variants) with `A = [0]`, `B = [1]`, strand `'+'`, the score-only
pass returns `-10` while the align pass returns score `0`.  The root cause
is the bottom-left corner of the DP: `NEEDLEMANWUNSCH_SCORE` initialises
the final row with `row[0] = nA * right_gap_extend_B` whereas
`NEEDLEMANWUNSCH_ALIGN` initialises it with `row[0] = i * left_gap_extend_B`
(`i = nA`), so the horizontal candidate of the corner cell differs whenever
the left and right deletion extends differ.  (All values here are small
integers, exactly representable in every IEEE-754 path, so the rational
model is bit-exact.) -/
theorem claim_C1_bug :
    _get_algorithm c1Aligner = Algorithm.NeedlemanWunschSmithWaterman
      ∧ c1Aligner.mode = Mode.Global
      ∧ Aligner_needlemanwunsch_score_compare c1Aligner [0] [1] '+' = some (-10)
      ∧ Aligner_needlemanwunsch_align_compare_score c1Aligner [0] [1] '+' = some 0
      ∧ nwCompareParams c1Aligner '+' = some c1Params
      ∧ NEEDLEMANWUNSCH_SCORE_loop c1Params [0] [1] = -10
      ∧ NEEDLEMANWUNSCH_ALIGN_loop_score c1Params c1Aligner.epsilon [0] [1] = 0 := by
  refine ⟨?_, rfl, ?_, ?_, rfl, ?_, ?_⟩
  · simp [_get_algorithm, c1Aligner, Aligner_init, sixOpenExtendPairsEqual]
  · simp [Aligner_needlemanwunsch_score_compare, nwCompareParams, c1Aligner, Aligner_init,
      nwScoreCell, SELECT_SCORE_GLOBAL, COMPARE_SCORE]
    norm_num
  · simp [Aligner_needlemanwunsch_align_compare_score, nwCompareParams, c1Aligner,
      Aligner_init, nwAlignCell, SELECT_TRACE_NEEDLEMAN_WUNSCH, COMPARE_SCORE]
    norm_num
  · simp only [NEEDLEMANWUNSCH_SCORE_loop, nwLoopRow, c1Params, c1Aligner, Aligner_init,
      SELECT_SCORE_GLOBAL, COMPARE_SCORE, List.length_cons, List.length_nil,
      List.range_succ, List.range_zero, List.map, List.foldl_cons, List.foldl_nil,
      List.getD, List.getLastD, List.nil_append, List.cons_append]
    norm_num
  · simp only [NEEDLEMANWUNSCH_ALIGN_loop_score, nwLoopRow, c1Params, c1Aligner,
      Aligner_init, SELECT_TRACE_NEEDLEMAN_WUNSCH, COMPARE_SCORE, List.length_cons,
      List.length_nil, List.range_succ, List.range_zero, List.map, List.foldl_cons,
      List.foldl_nil, List.getD, List.getLastD, List.nil_append, List.cons_append]
    norm_num

end BioAlign
